import Mathlib

/-!
# Verification of the projection engine (`buildRows`) of the investment calculator

Shallow embedding of `src/script.js` (identical to `src/unnamed/part_000`):
the pure function `buildRows`, its numeric-coercion helpers `toFinite` /
`toPct`, and the rounding helper `round2`.

Numbers are embedded as exact rationals (`ℚ`).  JavaScript values that may
reach the parameter record are embedded as `JSVal`: `undefined` (also the
value of an absent field), `null`, the empty string, a non-empty string
represented by the result of JavaScript `Number(...)` conversion, and a
number (finite, `NaN`, or `±Infinity`).  The `Number(...)` conversion rules
relevant here: `Number(undefined) = NaN`, `Number(null) = 0`,
`Number("") = 0`, a non-empty string converts to its parsed value or `NaN`.
After the coercion layer (`toFinite`, which replaces every non-finite
conversion result by a finite fallback) the recurrence receives only finite
numbers.  Two evaluations of the recurrence are given: the exact one over
`ℚ` (`buildRows`), in which arithmetic on finite values never leaves the
finite range, and an overflow-aware one over `JSNum` (`buildRowsJS`),
which keeps finite intermediate results exact but maps every arithmetic
result of magnitude at least `2^1024` to the correspondingly signed
infinity and propagates `±Infinity`/`NaN` by the IEEE-754/ECMAScript
rules.  In IEEE-754 binary64 round-to-nearest every exact result of
magnitude ≥ `2^1024` overflows to the signed infinity (the overflow
threshold is `2^1024 − 2^970` < `2^1024`), so `buildRowsJS`
under-approximates overflow: any infinity it produces is a fortiori
produced by the JavaScript evaluation.  On inputs whose every intermediate
is exactly representable in binary64 or past the threshold — such as
`paramsOverflow` below, built from exact powers of two — `buildRowsJS`
agrees with the JavaScript evaluation step for step.
`Math.round` is embedded by its ECMAScript definition (round half toward
`+∞`): `jsRound x = ⌊x + 1/2⌋`.
-/

/-- A JavaScript number: a finite value (embedded exactly as a rational),
`NaN`, or one of the two infinities. -/
inductive JSNum where
  | finite (q : ℚ)
  | nan
  | posInf
  | negInf
deriving DecidableEq

/-- Whether a JavaScript number is finite (`Number.isFinite`). -/
def JSNum.isFiniteNum : JSNum → Bool
  | .finite _ => true
  | _ => false

/-- A JavaScript value that can appear in a field of the parameter record
passed to `buildRows`.  `undef` is both the explicit `undefined` value and
the value read from an absent field.  A non-empty string is represented by
the `JSNum` that JavaScript `Number(...)` conversion yields for it. -/
inductive JSVal where
  | undef
  | null
  | emptyStr
  | strNum (conv : JSNum)
  | num (n : JSNum)
deriving DecidableEq

/-- JavaScript `Number(v)` conversion for the embedded values. -/
def toNumber : JSVal → JSNum
  | .undef => .nan
  | .null => .finite 0
  | .emptyStr => .finite 0
  | .strNum conv => conv
  | .num n => n

/-- JavaScript loose equality `v == null`, true exactly for `null` and
`undefined`. -/
def isNullish : JSVal → Bool
  | .undef => true
  | .null => true
  | _ => false

/-- `toFinite(v, fb)` from the source: `Number(v)` if finite, else the
fallback. -/
def toFinite (v : JSVal) (fb : ℚ) : ℚ :=
  match toNumber v with
  | .finite q => q
  | _ => fb

/-- `toPct(v) = toFinite(v) / 100` from the source (fallback 0). -/
def toPct (v : JSVal) : ℚ := toFinite v 0 / 100

/-- `Number.EPSILON = 2⁻⁵²`. -/
def EPS : ℚ := 1 / 2 ^ 52

/-- ECMAScript `Math.round`: round half toward `+∞`. -/
def jsRound (x : ℚ) : ℤ := ⌊x + 1 / 2⌋

/-- `round2(x) = Math.round((x + Number.EPSILON) * 100) / 100` from the
source. -/
def round2 (x : ℚ) : ℚ := (jsRound ((x + EPS) * 100) : ℚ) / 100

/-- The parameter record handed to `buildRows`.  Every field holds an
arbitrary `JSVal`; an absent field is `JSVal.undef`. -/
structure Params where
  startingCapital : JSVal
  incomeMonthly : JSVal
  expensesMonthly : JSVal
  incomeGrowthPct : JSVal
  returnPct : JSVal
  inflationPct : JSVal
  years : JSVal
  contributionInterestFactor : JSVal
deriving DecidableEq

/-- The fully empty parameter record: every field absent. -/
def Params.empty : Params :=
  ⟨.undef, .undef, .undef, .undef, .undef, .undef, .undef, .undef⟩

/-- One emitted row of the projection.  All monetary fields are the
2-decimal-rounded values the source pushes. -/
structure YearRow where
  year : ℕ
  incomeMonthly : ℚ
  expensesMonthly : ℚ
  deltaMonthly : ℚ
  contribution : ℚ
  capitalStart : ℚ
  interestOnStart : ℚ
  interestOnContribution : ℚ
  capitalEnd : ℚ
deriving DecidableEq

/-- The loop-carried state of `buildRows`: the three mutable locals
`capitalStart`, `incomeMonthly`, `expensesMonthly`. -/
structure SimState where
  capitalStart : ℚ
  incomeMonthly : ℚ
  expensesMonthly : ℚ
deriving DecidableEq

/-- The floored end-of-year capital of one iteration:
`capitalStart + contribution + interestOnStart + interestOnContribution`,
reset to 0 when negative (`if (capitalEnd < 0) capitalEnd = 0`). -/
def capitalEndOf (r k : ℚ) (s : SimState) : ℚ :=
  let deltaMonthly := s.incomeMonthly - s.expensesMonthly
  let contribution := deltaMonthly * 12
  let interestOnStart := s.capitalStart * r
  let interestOnContribution := contribution * r * k
  let capitalEnd := s.capitalStart + contribution + interestOnStart + interestOnContribution
  if capitalEnd < 0 then 0 else capitalEnd

/-- The row pushed by one iteration of the loop body, year `y`, state `s`. -/
def mkRow (r k : ℚ) (y : ℕ) (s : SimState) : YearRow :=
  let deltaMonthly := s.incomeMonthly - s.expensesMonthly
  let contribution := deltaMonthly * 12
  let interestOnStart := s.capitalStart * r
  let interestOnContribution := contribution * r * k
  { year := y
    incomeMonthly := round2 s.incomeMonthly
    expensesMonthly := round2 s.expensesMonthly
    deltaMonthly := round2 deltaMonthly
    contribution := round2 contribution
    capitalStart := round2 s.capitalStart
    interestOnStart := round2 interestOnStart
    interestOnContribution := round2 interestOnContribution
    capitalEnd := round2 (capitalEndOf r k s) }

/-- The end-of-iteration state update of the loop:
`capitalStart = capitalEnd` (the raw floored value),
`incomeMonthly *= (1 + gIncome)`, `expensesMonthly *= (1 + infl)`. -/
def stepState (gIncome r infl k : ℚ) (s : SimState) : SimState :=
  { capitalStart := capitalEndOf r k s
    incomeMonthly := s.incomeMonthly * (1 + gIncome)
    expensesMonthly := s.expensesMonthly * (1 + infl) }

/-- The `for (let y = 1; y <= years; y++)` loop of `buildRows`, with the
remaining iteration count as fuel. -/
def buildRowsAux (gIncome r infl k : ℚ) : ℕ → ℕ → SimState → List YearRow
  | 0, _, _ => []
  | n + 1, y, s =>
      mkRow r k y s :: buildRowsAux gIncome r infl k n (y + 1) (stepState gIncome r infl k s)

/-- The coerced, clamped loop bound:
`Math.max(1, Math.min(60, Math.floor(toFinite(p.years, 1))))`. -/
def yearsOf (p : Params) : ℕ := (max 1 (min 60 ⌊toFinite p.years 1⌋)).toNat

/-- The coerced contribution-interest factor `k`:
`p.contributionInterestFactor == null || p.contributionInterestFactor === ""
  ? 1 : toFinite(p.contributionInterestFactor, 0)`. -/
def kOf (p : Params) : ℚ :=
  if isNullish p.contributionInterestFactor ∨ p.contributionInterestFactor = .emptyStr then 1
  else toFinite p.contributionInterestFactor 0

/-- The coerced income growth rate `gIncome = toPct(p.incomeGrowthPct)`. -/
def gOf (p : Params) : ℚ := toPct p.incomeGrowthPct

/-- The coerced return rate `r = toPct(p.returnPct)`. -/
def rOf (p : Params) : ℚ := toPct p.returnPct

/-- The coerced inflation rate `infl = toPct(p.inflationPct)`. -/
def inflOf (p : Params) : ℚ :=  toPct p.inflationPct

/-- The initial loop state of `buildRows`. -/
def initState (p : Params) : SimState :=
  { capitalStart := toFinite p.startingCapital 0
    incomeMonthly := toFinite p.incomeMonthly 0
    expensesMonthly := toFinite p.expensesMonthly 0 }

/-- `buildRows(p)` from the source. -/
def buildRows (p : Params) : List YearRow :=
  buildRowsAux (gOf p) (rOf p) (inflOf p) (kOf p) (yearsOf p) 1 (initState p)

/-- The unrounded loop-state trajectory: the state at the start of the
`(j+1)`-st emitted iteration. -/
def rawTraj (gIncome r infl k : ℚ) (s : SimState) : ℕ → SimState
  | 0 => s
  | n + 1 => rawTraj gIncome r infl k (stepState gIncome r infl k s) n

/-! ## Infrastructure lemmas -/

theorem rawTraj_step_comm (g r i k : ℚ) (s : SimState) (n : ℕ) :
    rawTraj g r i k (stepState g r i k s) n = stepState g r i k (rawTraj g r i k s n) := by
  induction n generalizing s with
  | zero => rfl
  | succ n ih => rw [rawTraj, ih, rawTraj]

theorem buildRowsAux_length (g r i k : ℚ) (n y : ℕ) (s : SimState) :
    (buildRowsAux g r i k n y s).length = n := by
  induction n generalizing y s with
  | zero => rfl
  | succ n ih => simp [buildRowsAux, ih]

theorem buildRowsAux_getElem (g r i k : ℚ) (n j y : ℕ) (s : SimState) (h : j < n) :
    (buildRowsAux g r i k n y s)[j]? = some (mkRow r k (y + j) (rawTraj g r i k s j)) := by
  induction n generalizing j y s with
  | zero => exact absurd h (Nat.not_lt_zero j)
  | succ n ih =>
      cases j with
      | zero => simp [buildRowsAux, rawTraj]
      | succ j =>
          rw [buildRowsAux, List.getElem?_cons_succ,
            ih j (y + 1) (stepState g r i k s) (Nat.lt_of_succ_lt_succ h), rawTraj]
          ring_nf

theorem buildRows_length (p : Params) : (buildRows p).length = yearsOf p := by
  rw [buildRows, buildRowsAux_length]

theorem buildRows_getElem (p : Params) (j : ℕ) (h : j < yearsOf p) :
    (buildRows p)[j]? =
      some (mkRow (rOf p) (kOf p) (1 + j)
        (rawTraj (gOf p) (rOf p) (inflOf p) (kOf p) (initState p) j)) := by
  rw [buildRows, buildRowsAux_getElem _ _ _ _ _ _ _ _ h]

theorem yearsOf_pos (p : Params) : 1 ≤ yearsOf p := by
  rw [yearsOf]
  have h : (1 : ℤ) ≤ max 1 (min 60 ⌊toFinite p.years 1⌋) := le_max_left _ _
  exact Int.toNat_le_toNat h

theorem yearsOf_le (p : Params) : yearsOf p ≤ 60 := by
  rw [yearsOf]
  have h : max 1 (min 60 ⌊toFinite p.years 1⌋) ≤ (60 : ℤ) :=
    max_le (by norm_num) (min_le_left _ _)
  exact Int.toNat_le_toNat h


theorem round2_nonneg {x : ℚ} (hx : 0 ≤ x) : 0 ≤ round2 x := by
  rw [round2, jsRound, EPS]
  have h : (0 : ℚ) ≤ (x + 1 / 2 ^ 52) * 100 + 1 / 2 := by positivity
  have h2 := Int.floor_nonneg.mpr h
  have h3 : (0 : ℚ) ≤ (⌊(x + 1 / 2 ^ 52) * 100 + 1 / 2⌋ : ℚ) := by exact_mod_cast h2
  linarith

theorem capitalEndOf_nonneg (r k : ℚ) (s : SimState) : 0 ≤ capitalEndOf r k s := by
  simp only [capitalEndOf]
  split
  · exact le_refl 0
  · linarith [not_lt.mp (by assumption : ¬ _ < (0:ℚ))]

/-- The raw (unfloored, unrounded) end-of-year capital:
`capitalStart + contribution + interestOnStart + interestOnContribution`. -/
def capitalEndRaw (r k : ℚ) (s : SimState) : ℚ :=
  s.capitalStart + (s.incomeMonthly - s.expensesMonthly) * 12 +
    s.capitalStart * r + (s.incomeMonthly - s.expensesMonthly) * 12 * r * k

theorem capitalEndOf_eq_max (r k : ℚ) (s : SimState) :
    capitalEndOf r k s = max 0 (capitalEndRaw r k s) := by
  simp only [capitalEndOf, capitalEndRaw]
  split
  · exact (max_eq_left (le_of_lt (by assumption))).symm
  · exact (max_eq_right (not_lt.mp (by assumption))).symm

/-- The unrounded running state of the loop at the start of year `j + 1`. -/
def rawStateAt (p : Params) (j : ℕ) : SimState :=
  rawTraj (gOf p) (rOf p) (inflOf p) (kOf p) (initState p) j

theorem buildRows_getElem_raw (p : Params) (j : ℕ) (row : YearRow)
    (h : (buildRows p)[j]? = some row) :
    row = mkRow (rOf p) (kOf p) (1 + j) (rawStateAt p j) := by
  have hj : j < (buildRows p).length := by
    by_contra hj
    rw [List.getElem?_eq_none (le_of_not_lt hj)] at h
    exact Option.noConfusion h
  rw [buildRows_length p] at hj
  rw [buildRows_getElem p j hj] at h
  exact (Option.some.inj h).symm

example : buildRows Params.empty =
    [{ year := 1, incomeMonthly := 0, expensesMonthly := 0, deltaMonthly := 0,
       contribution := 0, capitalStart := 0, interestOnStart := 0,
       interestOnContribution := 0, capitalEnd := 0 }] := by
  norm_num +decide [buildRows, buildRowsAux, mkRow, stepState, capitalEndOf, yearsOf,
    kOf, gOf, rOf, inflOf, initState, toFinite, toNumber, toPct, isNullish,
    Params.empty, round2, jsRound, EPS, min_def, max_def, reduceCtorEq]

/-! ## Overflow-aware double semantics of the same recurrence

JavaScript numbers are IEEE-754 binary64.  The model below keeps finite
values exact (no 53-bit rounding, which coincides with binary64 wherever
the exact result is representable) and overflows every result of magnitude
at least `2^1024` to the signed infinity, with IEEE/ECMAScript propagation
rules for `±Infinity` and `NaN`. -/

/-- The power of two bounding the finite binary64 range: every exact
arithmetic result of magnitude ≥ `2^1024` overflows to the signed infinity
under round-to-nearest. -/
def OVERFLOW : ℚ := 2 ^ 1024

/-- Injection of an exact arithmetic result into a JavaScript number:
results reaching the overflow bound become the signed infinity, all others
are kept exact. -/
def JSNum.ofRat (x : ℚ) : JSNum :=
  if OVERFLOW ≤ x then .posInf else if x ≤ -OVERFLOW then .negInf else .finite x

theorem JSNum.ofRat_posInf {x : ℚ} (h : OVERFLOW ≤ x) : JSNum.ofRat x = .posInf := by
  rw [JSNum.ofRat, if_pos h]

theorem JSNum.ofRat_negInf {x : ℚ} (h1 : ¬ OVERFLOW ≤ x) (h2 : x ≤ -OVERFLOW) :
    JSNum.ofRat x = .negInf := by
  rw [JSNum.ofRat, if_neg h1, if_pos h2]

theorem JSNum.ofRat_finite {x : ℚ} (h1 : x < OVERFLOW) (h2 : -OVERFLOW < x) :
    JSNum.ofRat x = .finite x := by
  rw [JSNum.ofRat, if_neg (not_le.mpr h1), if_neg (not_le.mpr h2)]

/-- JavaScript `+` on numbers (`Infinity + (-Infinity) = NaN`, `NaN`
absorbing). -/
def JSNum.add : JSNum → JSNum → JSNum
  | .finite a, .finite b => .ofRat (a + b)
  | .finite _, .posInf => .posInf
  | .finite _, .negInf => .negInf
  | .posInf, .finite _ => .posInf
  | .negInf, .finite _ => .negInf
  | .posInf, .posInf => .posInf
  | .negInf, .negInf => .negInf
  | _, _ => .nan

/-- JavaScript `-` on numbers (`Infinity - Infinity = NaN`, `NaN`
absorbing). -/
def JSNum.sub : JSNum → JSNum → JSNum
  | .finite a, .finite b => .ofRat (a - b)
  | .finite _, .posInf => .negInf
  | .finite _, .negInf => .posInf
  | .posInf, .finite _ => .posInf
  | .negInf, .finite _ => .negInf
  | .posInf, .negInf => .posInf
  | .negInf, .posInf => .negInf
  | _, _ => .nan

/-- JavaScript `*` on numbers (`0 * Infinity = NaN`, sign rules for
infinities, `NaN` absorbing). -/
def JSNum.mul : JSNum → JSNum → JSNum
  | .finite a, .finite b => .ofRat (a * b)
  | .finite a, .posInf => if 0 < a then .posInf else if a < 0 then .negInf else .nan
  | .finite a, .negInf => if 0 < a then .negInf else if a < 0 then .posInf else .nan
  | .posInf, .finite b => if 0 < b then .posInf else if b < 0 then .negInf else .nan
  | .negInf, .finite b => if 0 < b then .negInf else if b < 0 then .posInf else .nan
  | .posInf, .posInf => .posInf
  | .posInf, .negInf => .negInf
  | .negInf, .posInf => .negInf
  | .negInf, .negInf => .posInf
  | _, _ => .nan

/-- JavaScript division by the literal 100 (the only division `round2`
performs): `±Infinity / 100 = ±Infinity`, `NaN / 100 = NaN`. -/
def JSNum.div100 : JSNum → JSNum
  | .finite a => .ofRat (a / 100)
  | x => x

/-- JavaScript `Math.round` on numbers: `Math.round(±Infinity) =
±Infinity`, `Math.round(NaN) = NaN`, finite values round half toward
`+∞`. -/
def JSNum.jsRoundNum : JSNum → JSNum
  | .finite a => .ofRat ((jsRound a : ℤ) : ℚ)
  | x => x

/-- JavaScript `<` on numbers: any comparison with `NaN` is false,
`-Infinity` is below everything else, `+Infinity` above. -/
def JSNum.lt : JSNum → JSNum → Bool
  | .nan, _ => false
  | _, .nan => false
  | .finite a, .finite b => decide (a < b)
  | .finite _, .posInf => true
  | .finite _, .negInf => false
  | .posInf, _ => false
  | .negInf, .negInf => false
  | .negInf, _ => true

/-- `round2` evaluated in double semantics:
`Math.round((x + Number.EPSILON) * 100) / 100`. -/
def round2JS (x : JSNum) : JSNum :=
  (((x.add (.finite EPS)).mul (.finite 100)).jsRoundNum).div100

/-- The loop-carried state of `buildRows` in double semantics. -/
structure SimStateJS where
  capitalStart : JSNum
  incomeMonthly : JSNum
  expensesMonthly : JSNum
deriving DecidableEq

/-- One emitted row of the projection in double semantics. -/
structure YearRowJS where
  year : ℕ
  incomeMonthly : JSNum
  expensesMonthly : JSNum
  deltaMonthly : JSNum
  contribution : JSNum
  capitalStart : JSNum
  interestOnStart : JSNum
  interestOnContribution : JSNum
  capitalEnd : JSNum
deriving DecidableEq

/-- The floored end-of-year capital in double semantics
(`if (capitalEnd < 0) capitalEnd = 0`; a `NaN` capital is not reset,
since `NaN < 0` is false). -/
def capitalEndOfJS (r k : JSNum) (s : SimStateJS) : JSNum :=
  let deltaMonthly := s.incomeMonthly.sub s.expensesMonthly
  let contribution := deltaMonthly.mul (.finite 12)
  let interestOnStart := s.capitalStart.mul r
  let interestOnContribution := (contribution.mul r).mul k
  let capitalEnd := ((s.capitalStart.add contribution).add interestOnStart).add
    interestOnContribution
  if capitalEnd.lt (.finite 0) then .finite 0 else capitalEnd

/-- The row pushed by one loop iteration in double semantics. -/
def mkRowJS (r k : JSNum) (y : ℕ) (s : SimStateJS) : YearRowJS :=
  let deltaMonthly := s.incomeMonthly.sub s.expensesMonthly
  let contribution := deltaMonthly.mul (.finite 12)
  let interestOnStart := s.capitalStart.mul r
  let interestOnContribution := (contribution.mul r).mul k
  { year := y
    incomeMonthly := round2JS s.incomeMonthly
    expensesMonthly := round2JS s.expensesMonthly
    deltaMonthly := round2JS deltaMonthly
    contribution := round2JS contribution
    capitalStart := round2JS s.capitalStart
    interestOnStart := round2JS interestOnStart
    interestOnContribution := round2JS interestOnContribution
    capitalEnd := round2JS (capitalEndOfJS r k s) }

/-- The end-of-iteration state update in double semantics:
`capitalStart = capitalEnd`, `incomeMonthly *= (1 + gIncome)`,
`expensesMonthly *= (1 + infl)`. -/
def stepStateJS (gIncome r infl k : JSNum) (s : SimStateJS) : SimStateJS :=
  { capitalStart := capitalEndOfJS r k s
    incomeMonthly := s.incomeMonthly.mul ((JSNum.finite 1).add gIncome)
    expensesMonthly := s.expensesMonthly.mul ((JSNum.finite 1).add infl) }

/-- The `for` loop of `buildRows` in double semantics. -/
def buildRowsJSAux (gIncome r infl k : JSNum) : ℕ → ℕ → SimStateJS → List YearRowJS
  | 0, _, _ => []
  | n + 1, y, s =>
      mkRowJS r k y s ::
        buildRowsJSAux gIncome r infl k n (y + 1) (stepStateJS gIncome r infl k s)

/-- `buildRows(p)` evaluated in double semantics.  The scalar coercions
(`toFinite`, `toPct`, the `years` clamp, the factor `k`) always yield
finite values and are kept exact. -/
def buildRowsJS (p : Params) : List YearRowJS :=
  buildRowsJSAux (.finite (gOf p)) (.finite (rOf p)) (.finite (inflOf p))
    (.finite (kOf p)) (yearsOf p) 1
    ⟨.finite (toFinite p.startingCapital 0), .finite (toFinite p.incomeMonthly 0),
      .finite (toFinite p.expensesMonthly 0)⟩

/-! ## Claims -/

/-- C1 (amended): `buildRows` is total over its input domain: for every
parameter record — including the empty record and records whose eight
fields are absent, `null`, `undefined`, blank strings, or `NaN` — it
returns a non-empty sequence of rows.  The original claim's further
conjunct — that every numeric field of every row is finite, never `NaN`
or `Infinity` — is false of the program: the coercion layer only
sanitizes the inputs, while the recurrence itself computes in binary64
and can overflow from coerced-finite inputs; see the counterexample
below, where `interestOnStart` and `capitalEnd` are emitted as
`Infinity`. -/
theorem C1_buildRows_total_nonempty (p : Params) : 0 < (buildRows p).length := by
  have h1 := yearsOf_pos p
  have h2 := buildRows_length p
  omega

/-- Scenario A of the spec: defaults, 1 year, factor 0.5. -/
def paramsScenarioA : Params :=
  ⟨.num (.finite 0), .num (.finite 5589), .num (.finite 4000), .num (.finite 10),
    .num (.finite 15), .num (.finite 5), .num (.finite 1), .num (.finite (1/2))⟩

/-- C2: on startingCapital=0, incomeMonthly=5589, expensesMonthly=4000,
incomeGrowthPct=10, returnPct=15, inflationPct=5, years=1,
contributionInterestFactor=0.5, `buildRows` returns exactly one row with
deltaMonthly=1589, contribution=19068, interestOnStart=0,
interestOnContribution=1430.10 and capitalEnd=20498.10. -/
theorem C2_scenarioA : buildRows paramsScenarioA =
    [{ year := 1, incomeMonthly := 5589, expensesMonthly := 4000, deltaMonthly := 1589,
       contribution := 19068, capitalStart := 0, interestOnStart := 0,
       interestOnContribution := 14301/10, capitalEnd := 204981/10 }] := by
  norm_num +decide [buildRows, buildRowsAux, mkRow, stepState, capitalEndOf, yearsOf,
    kOf, gOf, rOf, inflOf, initState, toFinite, toNumber, toPct, isNullish,
    paramsScenarioA, round2, jsRound, EPS, min_def, max_def, reduceCtorEq]

/-- Agreement of the overflow-aware double evaluation with the exact one
in the finite regime: on Scenario A no intermediate approaches the
overflow bound, every step of `buildRowsJS` stays finite, and the produced
row is exactly the finite lift of the row `buildRows` produces
(`C2_scenarioA`). -/
theorem buildRowsJS_agrees_scenarioA :
    buildRowsJS paramsScenarioA =
      [{ year := 1, incomeMonthly := .finite 5589, expensesMonthly := .finite 4000,
         deltaMonthly := .finite 1589, contribution := .finite 19068,
         capitalStart := .finite 0, interestOnStart := .finite 0,
         interestOnContribution := .finite (14301/10), capitalEnd := .finite (204981/10) }] := by
  norm_num +decide [buildRowsJS, buildRowsJSAux, mkRowJS, stepStateJS, capitalEndOfJS,
    round2JS, JSNum.add, JSNum.sub, JSNum.mul, JSNum.div100, JSNum.jsRoundNum,
    JSNum.ofRat_posInf, JSNum.ofRat_finite, JSNum.lt, OVERFLOW, yearsOf, kOf, gOf,
    rOf, inflOf, toFinite, toNumber, toPct, isNullish, jsRound, EPS, min_def,
    max_def, paramsScenarioA]

/-- Finite coerced inputs that overflow the double arithmetic:
`startingCapital = 2^1000` and `returnPct = 100 · 2^60`.  Both are exactly
representable in binary64, the coerced return rate is `2^60` exactly, and
year 1 computes `interestOnStart = 2^1000 · 2^60 = 2^1060 ≥ 2^1024`, which
overflows to `Infinity` and propagates into the emitted row. -/
def paramsOverflow : Params :=
  ⟨.num (.finite (2 ^ 1000)), .undef, .undef, .undef, .num (.finite (100 * 2 ^ 60)),
    .undef, .undef, .undef⟩

/-- The single row `buildRowsJS` emits for `paramsOverflow`. -/
def rowOverflow : YearRowJS :=
  { year := 1, incomeMonthly := .finite 0, expensesMonthly := .finite 0,
    deltaMonthly := .finite 0, contribution := .finite 0,
    capitalStart := .finite (2 ^ 1000), interestOnStart := .posInf,
    interestOnContribution := .finite 0, capitalEnd := .posInf }

/-- C1 counterexample: the finiteness conjunct of the claim fails on the
program.  With the coerced-finite inputs `startingCapital = 2^1000`,
`returnPct = 100 · 2^60` (every arithmetic step exactly representable in
binary64 until the overflow), the emitted row's `interestOnStart` and
`capitalEnd` fields are `Infinity`, not finite numbers. -/
theorem C1_total_finiteness_counterexample :
    ((buildRowsJS paramsOverflow)[0]?).map
        (fun row => (row.interestOnStart, row.capitalEnd)) = some (.posInf, .posInf) ∧
    ¬ (∀ row ∈ buildRowsJS paramsOverflow,
        row.interestOnStart.isFiniteNum = true ∧ row.capitalEnd.isFiniteNum = true) := by
  have hrow : buildRowsJS paramsOverflow = [rowOverflow] := by
    norm_num +decide [buildRowsJS, buildRowsJSAux, mkRowJS, stepStateJS, capitalEndOfJS,
      round2JS, JSNum.add, JSNum.sub, JSNum.mul, JSNum.div100, JSNum.jsRoundNum,
      JSNum.ofRat_posInf, JSNum.ofRat_finite, JSNum.lt, OVERFLOW, yearsOf, kOf,
      gOf, rOf, inflOf, toFinite, toNumber, toPct, isNullish, jsRound, EPS,
      min_def, max_def, paramsOverflow, rowOverflow]
  constructor
  · rw [hrow]
    simp [rowOverflow]
  · intro h
    rw [hrow] at h
    have hx := h rowOverflow (List.mem_singleton_self _)
    simp [rowOverflow, JSNum.isFiniteNum] at hx

/-- C4: for every input the output length equals
`clamp(floor(toFinite(years, 1)), 1, 60)`; out-of-range, fractional, zero,
negative or malformed `years` values are silently clamped, never rejected,
so the length is always in [1, 60]. -/
theorem C4_length_clamped (p : Params) :
    (buildRows p).length = (max 1 (min 60 ⌊toFinite p.years 1⌋)).toNat ∧
    1 ≤ (buildRows p).length ∧ (buildRows p).length ≤ 60 := by
  refine ⟨buildRows_length p, ?_, ?_⟩
  · rw [buildRows_length]
    exact yearsOf_pos p
  · rw [buildRows_length]
    exact yearsOf_le p

/-- The same parameter record with only `contributionInterestFactor`
replaced. -/
def setFactor (p : Params) (v : JSVal) : Params :=
  { p with contributionInterestFactor := v }

theorem buildRows_eq_of_kOf_eq (p : Params) (v : JSVal)
    (h : kOf p = kOf (setFactor p v)) : buildRows p = buildRows (setFactor p v) :=
  congrArg (fun c => buildRowsAux (gOf p) (rOf p) (inflOf p) c (yearsOf p) 1 (initState p)) h

/-- C3: the `contributionInterestFactor` coercion is asymmetric.  When the
raw value is `null`, `undefined` (also an absent field), or the empty
string, `buildRows` behaves identically to the same record with the factor
set to 1; when the raw value is present (not `undefined`) but does not
convert to a finite number, `buildRows` behaves identically to the same
record with the factor set to 0. -/
theorem C3_factor_coercion_asymmetric (p : Params) :
    ((p.contributionInterestFactor = .null ∨ p.contributionInterestFactor = .undef ∨
        p.contributionInterestFactor = .emptyStr) →
      buildRows p = buildRows (setFactor p (.num (.finite 1)))) ∧
    ((toNumber p.contributionInterestFactor).isFiniteNum = false →
      p.contributionInterestFactor ≠ .undef →
      buildRows p = buildRows (setFactor p (.num (.finite 0)))) := by
  constructor
  · intro h
    apply buildRows_eq_of_kOf_eq
    have h1 : kOf (setFactor p (.num (.finite 1))) = 1 := by
      simp [kOf, setFactor, isNullish, toFinite, toNumber]
    have h2 : kOf p = 1 := by
      rcases h with h | h | h <;> simp [kOf, h, isNullish]
    rw [h1, h2]
  · intro hfin hundef
    apply buildRows_eq_of_kOf_eq
    have h1 : kOf (setFactor p (.num (.finite 0))) = 0 := by
      simp [kOf, setFactor, isNullish, toFinite, toNumber]
    have h2 : kOf p = 0 := by
      have hcond : ¬ (isNullish p.contributionInterestFactor = true ∨
          p.contributionInterestFactor = .emptyStr) := by
        rintro (hh | hh)
        · cases hv : p.contributionInterestFactor <;>
            simp_all [isNullish, toNumber, JSNum.isFiniteNum]
        · rw [hh] at hfin
          simp [toNumber, JSNum.isFiniteNum] at hfin
      rw [kOf, if_neg hcond, toFinite]
      cases hn : toNumber p.contributionInterestFactor <;>
        simp_all [JSNum.isFiniteNum]
    rw [h1, h2]

/-- A record whose `contributionInterestFactor` is present but `NaN`. -/
def paramsFactorNaN : Params := setFactor Params.empty (.num .nan)

/-- Witness for C3: the empty record (factor absent) behaves as factor 1,
and a record with factor `NaN` behaves as factor 0. -/
theorem C3_factor_coercion_asymmetric_witness :
    buildRows Params.empty = buildRows (setFactor Params.empty (.num (.finite 1))) ∧
    buildRows paramsFactorNaN = buildRows (setFactor paramsFactorNaN (.num (.finite 0))) :=
  ⟨(C3_factor_coercion_asymmetric Params.empty).1 (Or.inr (Or.inl rfl)),
   (C3_factor_coercion_asymmetric paramsFactorNaN).2 rfl (by decide)⟩

/-- C5: every row's `capitalEnd` field equals `round2` of
`max(0, capitalStart + contribution + interestOnStart +
interestOnContribution)` computed from that year's running (unrounded)
values — a hard floor applied once per year, before rounding and before
chaining — and consequently no row's `capitalEnd` field is negative. -/
theorem C5_capitalEnd_floored_nonneg (p : Params) (j : ℕ) (row : YearRow)
    (h : (buildRows p)[j]? = some row) :
    row.capitalEnd =
      round2 (max 0 (capitalEndRaw (rOf p) (kOf p) (rawStateAt p j))) ∧
    0 ≤ row.capitalEnd := by
  rw [buildRows_getElem_raw p j row h]
  constructor
  · show round2 (capitalEndOf (rOf p) (kOf p) (rawStateAt p j)) = _
    rw [capitalEndOf_eq_max]
  · exact round2_nonneg (capitalEndOf_nonneg _ _ _)

/-- Scenario B of the spec: a withdrawal year that would drive capital
negative (raw end-of-year capital −7100). -/
def paramsScenarioB : Params :=
  ⟨.num (.finite 5000), .num (.finite 1000), .num (.finite 2000), .num (.finite 0),
    .num (.finite 10), .num (.finite 0), .num (.finite 1), .num (.finite (1/2))⟩

/-- The single row produced for Scenario B. -/
def rowScenarioB : YearRow :=
  { year := 1, incomeMonthly := 1000, expensesMonthly := 2000, deltaMonthly := -1000,
    contribution := -12000, capitalStart := 5000, interestOnStart := 500,
    interestOnContribution := -600, capitalEnd := 0 }

/-- Witness for C5 at Scenario B: the floor makes `capitalEnd` exactly 0. -/
theorem C5_capitalEnd_floored_nonneg_witness :
    (buildRows paramsScenarioB)[0]? = some rowScenarioB ∧
    (rowScenarioB.capitalEnd =
        round2 (max 0 (capitalEndRaw (rOf paramsScenarioB) (kOf paramsScenarioB)
          (rawStateAt paramsScenarioB 0))) ∧
      0 ≤ rowScenarioB.capitalEnd) := by
  have h : (buildRows paramsScenarioB)[0]? = some rowScenarioB := by
    norm_num +decide [buildRows, buildRowsAux, mkRow, stepState, capitalEndOf, yearsOf,
      kOf, gOf, rOf, inflOf, initState, toFinite, toNumber, toPct, isNullish,
      paramsScenarioB, rowScenarioB, round2, jsRound, EPS, min_def, max_def]
  exact ⟨h, C5_capitalEnd_floored_nonneg paramsScenarioB 0 rowScenarioB h⟩

/-- The state update as §4.2 step 8 of the spec words it: `capitalStart :=
capitalEnd` carrying the "rounded value, not raw".  This definition follows
the spec's words, for comparison with the source's `stepState`, which
carries the raw floored value. -/
def stepStateSpec (gIncome r infl k : ℚ) (s : SimState) : SimState :=
  { capitalStart := round2 (capitalEndOf r k s)
    incomeMonthly := s.incomeMonthly * (1 + gIncome)
    expensesMonthly := s.expensesMonthly * (1 + infl) }

/-- The projection loop with the rounded carry the spec describes. -/
def buildRowsSpecAux (gIncome r infl k : ℚ) : ℕ → ℕ → SimState → List YearRow
  | 0, _, _ => []
  | n + 1, y, s =>
      mkRow r k y s :: buildRowsSpecAux gIncome r infl k n (y + 1) (stepStateSpec gIncome r infl k s)

/-- `buildRows` as the spec words it: the rounded `capitalEnd` is carried
into the next iteration. -/
def buildRowsSpec (p : Params) : List YearRow :=
  buildRowsSpecAux (gOf p) (rOf p) (inflOf p) (kOf p) (yearsOf p) 1 (initState p)

/-- An input separating the raw carry from the claimed rounded carry:
`startingCapital = 0.001`, `returnPct = 100000`, `years = 2`. -/
def paramsCarry : Params :=
  ⟨.num (.finite (1/1000)), .undef, .undef, .undef, .num (.finite 100000), .undef,
    .num (.finite 2), .undef⟩

/-- C6 counterexample: the loop-carried value is not the rounded
`capitalEnd`.  On `paramsCarry`, year 1 ends with raw capital 1.001
(rounded field 1.00); the source carries 1.001 into year 2, giving
`interestOnStart` 1001, whereas carrying the rounded value as the claim
states would give 1000. -/
theorem C6_chained_state_counterexample :
    ((buildRows paramsCarry)[1]?).map YearRow.interestOnStart = some 1001 ∧
    ((buildRowsSpec paramsCarry)[1]?).map YearRow.interestOnStart = some 1000 ∧
    buildRows paramsCarry ≠ buildRowsSpec paramsCarry := by
  have h1 : ((buildRows paramsCarry)[1]?).map YearRow.interestOnStart = some 1001 := by
    norm_num +decide [buildRows, buildRowsAux, mkRow, stepState, capitalEndOf, yearsOf,
      kOf, gOf, rOf, inflOf, initState, toFinite, toNumber, toPct, isNullish,
      paramsCarry, round2, jsRound, EPS, min_def, max_def]
  have h2 : ((buildRowsSpec paramsCarry)[1]?).map YearRow.interestOnStart = some 1000 := by
    norm_num +decide [buildRowsSpec, buildRowsSpecAux, mkRow, stepStateSpec, capitalEndOf,
      yearsOf, kOf, gOf, rOf, inflOf, initState, toFinite, toNumber, toPct, isNullish,
      paramsCarry, round2, jsRound, EPS, min_def, max_def]
  refine ⟨h1, h2, fun heq => ?_⟩
  rw [heq, h2] at h1
  exact absurd (Option.some.inj h1) (by norm_num)

/-- C6 (amended): for every input the emitted `year` fields are exactly
1..N in ascending order (`row[j].year = j + 1`), and every row's
`capitalStart` field equals the previous row's `capitalEnd` field.  The
value carried into the next iteration is the raw floored `capitalEnd`, not
the rounded one; the field-level equality nevertheless holds because both
fields are `round2` of that same carried raw value. -/
theorem C6_chained_state (p : Params) :
    (∀ j row, (buildRows p)[j]? = some row → row.year = j + 1) ∧
    (∀ j rowA rowB, (buildRows p)[j]? = some rowA →
      (buildRows p)[j + 1]? = some rowB → rowB.capitalStart = rowA.capitalEnd) := by
  constructor
  · intro j row h
    rw [buildRows_getElem_raw p j row h]
    show 1 + j = j + 1
    omega
  · intro j rowA rowB hA hB
    rw [buildRows_getElem_raw p j rowA hA, buildRows_getElem_raw p (j + 1) rowB hB]
    have hstep : rawStateAt p (j + 1) =
        stepState (gOf p) (rOf p) (inflOf p) (kOf p) (rawStateAt p j) := by
      show rawTraj _ _ _ _ (stepState _ _ _ _ (initState p)) j = _
      exact rawTraj_step_comm _ _ _ _ _ j
    show round2 (rawStateAt p (j + 1)).capitalStart =
      round2 (capitalEndOf (rOf p) (kOf p) (rawStateAt p j))
    rw [hstep]
    rfl

/-- Scenario C of the spec: growth/inflation over 2 years, zero return. -/
def paramsScenarioC : Params :=
  ⟨.num (.finite 0), .num (.finite 5589), .num (.finite 4000), .num (.finite 10),
    .num (.finite 0), .num (.finite 5), .num (.finite 2), .num (.finite 0)⟩

/-- Scenario C's first row. -/
def rowScenarioC1 : YearRow :=
  { year := 1, incomeMonthly := 5589, expensesMonthly := 4000, deltaMonthly := 1589,
    contribution := 19068, capitalStart := 0, interestOnStart := 0,
    interestOnContribution := 0, capitalEnd := 19068 }

/-- Scenario C's second row. -/
def rowScenarioC2 : YearRow :=
  { year := 2, incomeMonthly := 61479/10, expensesMonthly := 4200,
    deltaMonthly := 19479/10, contribution := 116874/5, capitalStart := 19068,
    interestOnStart := 0, interestOnContribution := 0, capitalEnd := 212214/5 }

/-- Witness for C6 (amended) at Scenario C: the year fields are 1 and 2 and
row 2 starts from row 1's rounded `capitalEnd`. -/
theorem C6_chained_state_witness :
    rowScenarioC1.year = 0 + 1 ∧ rowScenarioC2.capitalStart = rowScenarioC1.capitalEnd := by
  have h1 : (buildRows paramsScenarioC)[0]? = some rowScenarioC1 := by
    norm_num +decide [buildRows, buildRowsAux, mkRow, stepState, capitalEndOf, yearsOf,
      kOf, gOf, rOf, inflOf, initState, toFinite, toNumber, toPct, isNullish,
      paramsScenarioC, rowScenarioC1, round2, jsRound, EPS, min_def, max_def]
  have h2 : (buildRows paramsScenarioC)[1]? = some rowScenarioC2 := by
    norm_num +decide [buildRows, buildRowsAux, mkRow, stepState, capitalEndOf, yearsOf,
      kOf, gOf, rOf, inflOf, initState, toFinite, toNumber, toPct, isNullish,
      paramsScenarioC, rowScenarioC2, round2, jsRound, EPS, min_def, max_def]
  exact ⟨(C6_chained_state paramsScenarioC).1 0 rowScenarioC1 h1,
    (C6_chained_state paramsScenarioC).2 0 rowScenarioC1 rowScenarioC2 h1 h2⟩

/-- C7: income growth and expense inflation are applied after the current
year's row is recorded: with incomeMonthly=5589, expensesMonthly=4000,
incomeGrowthPct=10, inflationPct=5, returnPct=0, years=2, the year-1 row
still shows 5589/4000 and the year-2 row shows
incomeMonthly = 5589 × 1.10 = 6147.9 and expensesMonthly = 4000 × 1.05 = 4200. -/
theorem C7_growth_after_recording :
    ((buildRows paramsScenarioC)[0]?).map
        (fun row => (row.incomeMonthly, row.expensesMonthly)) = some (5589, 4000) ∧
    ((buildRows paramsScenarioC)[1]?).map
        (fun row => (row.incomeMonthly, row.expensesMonthly)) = some (61479/10, 4200) := by
  constructor <;>
  norm_num +decide [buildRows, buildRowsAux, mkRow, stepState, capitalEndOf, yearsOf,
    kOf, gOf, rOf, inflOf, initState, toFinite, toNumber, toPct, isNullish,
    paramsScenarioC, round2, jsRound, EPS, min_def, max_def, reduceCtorEq]

/-- An input with sub-cent monthly figures on which independent 2-decimal
rounding of the fields breaks the field-level delta identity:
`incomeMonthly = 0.006`, `expensesMonthly = 0.002`. -/
def paramsTinyDelta : Params :=
  ⟨.undef, .num (.finite (3/500)), .num (.finite (1/500)), .undef, .undef,
    .undef, .undef, .undef⟩

/-- The single row produced for `paramsTinyDelta`: the rounded fields are
incomeMonthly = 0.01, expensesMonthly = 0, deltaMonthly = 0. -/
def rowTinyDelta : YearRow :=
  { year := 1, incomeMonthly := 1/100, expensesMonthly := 0, deltaMonthly := 0,
    contribution := 1/20, capitalStart := 0, interestOnStart := 0,
    interestOnContribution := 0, capitalEnd := 1/20 }

/-- C8 counterexample: on `paramsTinyDelta` the emitted row has
deltaMonthly = 0 but incomeMonthly − expensesMonthly = 0.01 − 0 = 0.01,
because the three fields are rounded to 2 decimals independently. -/
theorem C8_delta_identity_counterexample :
    ¬ (∀ row ∈ buildRows paramsTinyDelta,
        row.deltaMonthly = row.incomeMonthly - row.expensesMonthly) := by
  intro h
  have hrow : buildRows paramsTinyDelta = [rowTinyDelta] := by
    norm_num +decide [buildRows, buildRowsAux, mkRow, stepState, capitalEndOf, yearsOf,
      kOf, gOf, rOf, inflOf, initState, toFinite, toNumber, toPct, isNullish,
      round2, jsRound, EPS, min_def, max_def, paramsTinyDelta, rowTinyDelta]
  rw [hrow] at h
  have hx := h rowTinyDelta (List.mem_singleton_self _)
  norm_num [rowTinyDelta] at hx

/-- C8 (amended): every row's `deltaMonthly` field is `round2` of the
difference of that year's unrounded running `incomeMonthly` and
`expensesMonthly`.  The identity holds on the unrounded quantities before
rounding; it does not in general hold between the three independently
rounded fields of the row. -/
theorem C8_delta_from_raw (p : Params) (j : ℕ) (row : YearRow)
    (h : (buildRows p)[j]? = some row) :
    row.deltaMonthly =
      round2 ((rawStateAt p j).incomeMonthly - (rawStateAt p j).expensesMonthly) := by
  rw [buildRows_getElem_raw p j row h]
  rfl

/-- Witness for C8 (amended) at Scenario B. -/
theorem C8_delta_from_raw_witness :
    rowScenarioB.deltaMonthly =
      round2 ((rawStateAt paramsScenarioB 0).incomeMonthly -
        (rawStateAt paramsScenarioB 0).expensesMonthly) := by
  have h : (buildRows paramsScenarioB)[0]? = some rowScenarioB := by
    norm_num +decide [buildRows, buildRowsAux, mkRow, stepState, capitalEndOf, yearsOf,
      kOf, gOf, rOf, inflOf, initState, toFinite, toNumber, toPct, isNullish,
      round2, jsRound, EPS, min_def, max_def, paramsScenarioB, rowScenarioB]
  exact C8_delta_from_raw paramsScenarioB 0 rowScenarioB h

/-- C9: every monetary field of every emitted row equals
`round2(x) = Math.round((x + Number.EPSILON) * 100) / 100` — round half up
after adding the epsilon — applied to the corresponding unrounded quantity
of that year's running state, for all eight monetary fields. -/
theorem C9_fields_rounded (p : Params) (j : ℕ) (row : YearRow)
    (h : (buildRows p)[j]? = some row) :
    row.incomeMonthly = round2 (rawStateAt p j).incomeMonthly ∧
    row.expensesMonthly = round2 (rawStateAt p j).expensesMonthly ∧
    row.deltaMonthly =
      round2 ((rawStateAt p j).incomeMonthly - (rawStateAt p j).expensesMonthly) ∧
    row.contribution =
      round2 (((rawStateAt p j).incomeMonthly - (rawStateAt p j).expensesMonthly) * 12) ∧
    row.capitalStart = round2 (rawStateAt p j).capitalStart ∧
    row.interestOnStart = round2 ((rawStateAt p j).capitalStart * rOf p) ∧
    row.interestOnContribution =
      round2 (((rawStateAt p j).incomeMonthly - (rawStateAt p j).expensesMonthly) * 12 *
        rOf p * kOf p) ∧
    row.capitalEnd = round2 (max 0 (capitalEndRaw (rOf p) (kOf p) (rawStateAt p j))) := by
  rw [buildRows_getElem_raw p j row h]
  refine ⟨rfl, rfl, rfl, rfl, rfl, rfl, rfl, ?_⟩
  show round2 (capitalEndOf (rOf p) (kOf p) (rawStateAt p j)) = _
  rw [capitalEndOf_eq_max]

/-- Witness for C9 at Scenario B. -/
theorem C9_fields_rounded_witness :
    rowScenarioB.incomeMonthly = round2 (rawStateAt paramsScenarioB 0).incomeMonthly ∧
    rowScenarioB.expensesMonthly = round2 (rawStateAt paramsScenarioB 0).expensesMonthly ∧
    rowScenarioB.deltaMonthly =
      round2 ((rawStateAt paramsScenarioB 0).incomeMonthly -
        (rawStateAt paramsScenarioB 0).expensesMonthly) ∧
    rowScenarioB.contribution =
      round2 (((rawStateAt paramsScenarioB 0).incomeMonthly -
        (rawStateAt paramsScenarioB 0).expensesMonthly) * 12) ∧
    rowScenarioB.capitalStart = round2 (rawStateAt paramsScenarioB 0).capitalStart ∧
    rowScenarioB.interestOnStart =
      round2 ((rawStateAt paramsScenarioB 0).capitalStart * rOf paramsScenarioB) ∧
    rowScenarioB.interestOnContribution =
      round2 (((rawStateAt paramsScenarioB 0).incomeMonthly -
        (rawStateAt paramsScenarioB 0).expensesMonthly) * 12 *
        rOf paramsScenarioB * kOf paramsScenarioB) ∧
    rowScenarioB.capitalEnd =
      round2 (max 0 (capitalEndRaw (rOf paramsScenarioB) (kOf paramsScenarioB)
        (rawStateAt paramsScenarioB 0))) := by
  have h : (buildRows paramsScenarioB)[0]? = some rowScenarioB := by
    norm_num +decide [buildRows, buildRowsAux, mkRow, stepState, capitalEndOf, yearsOf,
      kOf, gOf, rOf, inflOf, initState, toFinite, toNumber, toPct, isNullish,
      round2, jsRound, EPS, min_def, max_def, paramsScenarioB, rowScenarioB]
  exact C9_fields_rounded paramsScenarioB 0 rowScenarioB h

/-- C10: every row after the first has a non-negative `capitalStart` field,
because it is chained from the previous year's floored `capitalEnd`; only
the first row can carry a negative `capitalStart`, and only when the
coerced `startingCapital` input is itself negative. -/
theorem C10_capitalStart_nonneg_after_first (p : Params) :
    (∀ j row, 1 ≤ j → (buildRows p)[j]? = some row → 0 ≤ row.capitalStart) ∧
    (∀ row, (buildRows p)[0]? = some row → row.capitalStart < 0 →
      toFinite p.startingCapital 0 < 0) := by
  constructor
  · intro j row hj h
    rw [buildRows_getElem_raw p j row h]
    show 0 ≤ round2 (rawStateAt p j).capitalStart
    obtain ⟨j', rfl⟩ : ∃ i, j = i + 1 := ⟨j - 1, by omega⟩
    have hstep : rawStateAt p (j' + 1) =
        stepState (gOf p) (rOf p) (inflOf p) (kOf p) (rawStateAt p j') := by
      show rawTraj _ _ _ _ (stepState _ _ _ _ (initState p)) j' = _
      exact rawTraj_step_comm _ _ _ _ _ j'
    rw [hstep]
    exact round2_nonneg (capitalEndOf_nonneg _ _ _)
  · intro row h hneg
    rw [buildRows_getElem_raw p 0 row h] at hneg
    by_contra hpos
    push_neg at hpos
    have hge : 0 ≤ round2 (rawStateAt p 0).capitalStart := round2_nonneg hpos
    exact absurd hneg (not_lt.mpr hge)

/-- Witness for C10: in Scenario C, the year-2 row's `capitalStart` (19068)
is non-negative. -/
theorem C10_capitalStart_nonneg_after_first_witness :
    0 ≤ rowScenarioC2.capitalStart := by
  have h : (buildRows paramsScenarioC)[1]? = some rowScenarioC2 := by
    norm_num +decide [buildRows, buildRowsAux, mkRow, stepState, capitalEndOf, yearsOf,
      kOf, gOf, rOf, inflOf, initState, toFinite, toNumber, toPct, isNullish,
      round2, jsRound, EPS, min_def, max_def, paramsScenarioC, rowScenarioC2]
  exact (C10_capitalStart_nonneg_after_first paramsScenarioC).1 1 rowScenarioC2
    (by norm_num) h
